import Mathlib

/-
Verification development for the CollabWrite collaborative editor backend.

The definitions below are a shallow embedding of the Python sources:
  * `CollabWrite.Crdt`      embeds app/backend/core/crdt.py
  * `CollabWrite.Broadcast` embeds app/backend/core/broadcast.py
  * `CollabWrite.Ws`        embeds the ConnectionManager of
                            app/backend/api/v1/endpoints/websocket.py

Python machine details are modelled as follows: `datetime.utcnow()` is an
ambient clock, so every operation that reads it takes an explicit `now`
argument; float timestamps are only ever compared with `<` and `==` in the
source, so they are embedded as `Int`; Python dicts are embedded as
association lists with lookup/update/erase helpers; a Python statement that
can raise is embedded in `Except`.
-/

namespace CollabWrite

namespace Crdt

/-- Mirror of the `Position` dataclass of crdt.py. -/
structure Position where
  site_id : String
  counter : Int
  timestamp : Int
deriving DecidableEq, Repr

/-- Mirror of the `Character` dataclass of crdt.py. -/
structure Character where
  value : String
  position : Position
  deleted : Bool
deriving DecidableEq, Repr

/-- Mirror of the mutable state of class `CRDT` of crdt.py. -/
structure CRDT where
  site_id : String
  characters : List Character
  counter : Int
deriving DecidableEq, Repr

/-- `CRDT.__init__`. -/
def CRDT.init (site_id : String) : CRDT :=
  { site_id := site_id, characters := [], counter := 0 }

/-- Placeholder character for guarded list accesses that the Python code
performs with plain indexing inside range-checked branches. -/
def dummyChar : Character :=
  { value := "", position := { site_id := "", counter := 0, timestamp := 0 }, deleted := false }

/-- `CRDT.generate_position`: bumps the local counter and stamps the ambient
clock value `now`. -/
def generate_position (c : CRDT) (now : Int) : Position × CRDT :=
  let ctr := c.counter + 1
  ({ site_id := c.site_id, counter := ctr, timestamp := now },
   { c with counter := ctr })

/-- `CRDT.compare_positions`: different sites are compared by timestamp,
the same site by counter; the result is `-1` or `1`, never `0`. -/
def compare_positions (pos1 pos2 : Position) : Int :=
  if pos1.site_id ≠ pos2.site_id then
    if pos1.timestamp < pos2.timestamp then -1 else 1
  else
    if pos1.counter < pos2.counter then -1 else 1

/-- `list.insert(i, x)` of Python: insert before index `i`, appending when
`i` is past the end. -/
def insertAt : List Character → Nat → Character → List Character
  | l, 0, ch => ch :: l
  | [], _ + 1, ch => [ch]
  | x :: xs, n + 1, ch => x :: insertAt xs n ch

/-- `CRDT.insert`: the empty case goes through `generate_position`; the
boundary cases use counter `0` resp. last counter + 1; the interior case
takes the floor midpoint `(prev + next) // 2` of the two neighbour
counters. -/
def insert (c : CRDT) (index : Nat) (value : String) (now : Int) : Character × CRDT :=
  if c.characters.isEmpty then
    let pc := generate_position c now
    let ch : Character := { value := value, position := pc.1, deleted := false }
    (ch, { pc.2 with characters := [ch] })
  else
    let pos : Position :=
      if index = 0 then
        { site_id := c.site_id, counter := 0, timestamp := now }
      else if index ≥ c.characters.length then
        { site_id := c.site_id,
          counter := (c.characters.getLastD dummyChar).position.counter + 1,
          timestamp := now }
      else
        let prevc := c.characters.getD (index - 1) dummyChar
        let nextc := c.characters.getD index dummyChar
        { site_id := c.site_id,
          counter := Int.fdiv (prevc.position.counter + nextc.position.counter) 2,
          timestamp := now }
    let ch : Character := { value := value, position := pos, deleted := false }
    (ch, { c with characters := insertAt c.characters index ch })

/-- `CRDT.delete`: guarded by `0 <= index < len(self.characters)`, the index
counts every stored character, tombstones included; in range it sets the
tombstone flag and returns the updated character. -/
def delete (c : CRDT) (index : Int) : Option Character × CRDT :=
  if 0 ≤ index ∧ index < (c.characters.length : Int) then
    let i := index.toNat
    let ch := { c.characters.getD i dummyChar with deleted := true }
    (some ch, { c with characters := c.characters.set i ch })
  else
    (none, c)

/-- `CRDT.get_text`: concatenation of the non-deleted values in sequence
order. -/
def get_text (c : CRDT) : String :=
  String.join ((c.characters.filter (fun ch => !ch.deleted)).map (fun ch => ch.value))

/-- The loop body of `CRDT.apply_remote_operation`: the incoming character
is inserted before the first stored character whose position compares
greater, and appended when there is none.  There is no duplicate check. -/
def applyRemoteChars : List Character → Character → List Character
  | [], ch => [ch]
  | x :: xs, ch =>
    if compare_positions x.position ch.position > 0 then ch :: x :: xs
    else x :: applyRemoteChars xs ch

/-- `CRDT.apply_remote_operation`. -/
def apply_remote_operation (c : CRDT) (ch : Character) : CRDT :=
  { c with characters := applyRemoteChars c.characters ch }

/-- Serialized form of a `Position` as produced by `CRDT.to_dict`. -/
structure PosDict where
  site_id : String
  counter : Int
  timestamp : Int
deriving DecidableEq, Repr

/-- Serialized form of a `Character` as produced by `CRDT.to_dict`. -/
structure CharDict where
  value : String
  position : PosDict
  deleted : Bool
deriving DecidableEq, Repr

/-- Serialized form of the whole document as produced by `CRDT.to_dict`. -/
structure DocDict where
  characters : List CharDict
deriving DecidableEq, Repr

/-- The per-character dictionary built inside the comprehension of
`CRDT.to_dict`. -/
def encChar (ch : Character) : CharDict :=
  { value := ch.value,
    position :=
      { site_id := ch.position.site_id,
        counter := ch.position.counter,
        timestamp := ch.position.timestamp },
    deleted := ch.deleted }

/-- The `Character(...)` rebuilt inside the comprehension of
`CRDT.from_dict`. -/
def decChar (cd : CharDict) : Character :=
  { value := cd.value,
    position :=
      { site_id := cd.position.site_id,
        counter := cd.position.counter,
        timestamp := cd.position.timestamp },
    deleted := cd.deleted }

/-- `CRDT.to_dict`. -/
def to_dict (c : CRDT) : DocDict :=
  { characters := c.characters.map encChar }

/-- `CRDT.from_dict`: builds `cls(site_id)` (whose local counter is 0) and
replaces its character list with the deserialized one; the counter is left
at 0. -/
def from_dict (data : DocDict) (site_id : String) : CRDT :=
  { CRDT.init site_id with characters := data.characters.map decChar }

/-- A character as sent by site `s1`. -/
def chX : Character :=
  { value := "x", position := { site_id := "s1", counter := 1, timestamp := 5 }, deleted := false }

/-- A concurrent character from site `s2` whose clock reads the same value. -/
def chY : Character :=
  { value := "y", position := { site_id := "s2", counter := 1, timestamp := 5 }, deleted := false }

/-- Position from site `A` with the smaller counter. -/
def pP : Position := { site_id := "A", counter := 0, timestamp := 5 }

/-- Position from site `B` with the larger counter and an equal clock value. -/
def pQ : Position := { site_id := "B", counter := 1, timestamp := 5 }

/-- Empty document at site `s`. -/
def c0 : CRDT := CRDT.init "s"

/-- After `insert(0, "a")` at clock 0. -/
def c1 : CRDT := (insert c0 0 "a" 0).2

/-- After a further `insert(0, "b")` at clock 0. -/
def c2 : CRDT := (insert c1 0 "b" 0).2

/-- After a further `insert(0, "c")` at clock 0. -/
def c3 : CRDT := (insert c2 0 "c" 0).2

/-- Snapshot holding one character whose stored counter is 1. -/
def d0 : DocDict :=
  { characters :=
      [{ value := "x",
         position := { site_id := "A", counter := 1, timestamp := 0 },
         deleted := false }] }

/-- Two-character document used to exercise `delete`. -/
def cW : CRDT :=
  { site_id := "w",
    characters :=
      [{ value := "a", position := { site_id := "w", counter := 1, timestamp := 0 }, deleted := false },
       { value := "b", position := { site_id := "w", counter := 2, timestamp := 0 }, deleted := false }],
    counter := 2 }

end Crdt

/-- Python dict lookup `d.get(k)`: the first binding of the key wins. -/
def mlookup {α : Type} : List (Nat × α) → Nat → Option α
  | [], _ => none
  | (k, v) :: t, k2 => if k2 = k then some v else mlookup t k2

/-- Python dict deletion `d.pop(k, None)` / `del d[k]`: every binding of the
key is removed (dict keys are unique, so at most one exists). -/
def merase {α : Type} : List (Nat × α) → Nat → List (Nat × α)
  | [], _ => []
  | p :: t, k => if p.1 = k then merase t k else p :: merase t k

/-- Python dict assignment `d[k] = v`: replaces in place, else appends. -/
def mset {α : Type} : List (Nat × α) → Nat → α → List (Nat × α)
  | [], k, v => [(k, v)]
  | (k0, v0) :: t, k, v =>
    if k = k0 then (k0, v) :: t else (k0, v0) :: mset t k v

namespace Broadcast

open Crdt

/-- Decoded `char` payload of an edit message; each field may be absent from
the wire dictionary. -/
structure CharData where
  value : Option String
  position : Option Position
  deleted : Option Bool
deriving DecidableEq, Repr

/-- Decoded inbound message of broadcast.py: `message.get(...)` yields `none`
for an absent field. -/
structure Message where
  mtype : Option String
  user_id : Option Nat
  operation : Option String
  char : Option CharData
  position : Option Int
deriving DecidableEq, Repr

/-- One outbound `send_json` payload of broadcast.py. -/
inductive Out where
  | edit (user_id : Nat) (operation : String) (char : CharData) (timestamp : Int)
  | cursor (user_id : Nat) (position : Int) (timestamp : Int)
  | syncResponse (state : DocDict) (cursors : List (Nat × Int)) (timestamp : Int)
deriving DecidableEq, Repr

/-- A Python exception escaping a handler (`KeyError` from a missing dict
key). -/
inductive PyErr where
  | keyError
deriving DecidableEq, Repr

/-- The slice of `ConnectionManager` state for one document id:
`active_connections.get(doc)` (user ids in dict order),
`document_states.get(doc)` and `user_cursors.get(doc)`. -/
structure MgrDoc where
  connections : Option (List Nat)
  doc_state : Option CRDT
  cursors : Option (List (Nat × Int))
deriving DecidableEq, Repr

/-- `ConnectionManager.broadcast_to_document`: a send to every connected user
of the document except `exclude` (send failures are transport I/O and not
modelled). -/
def broadcast_to_document (st : MgrDoc) (msg : Out) (exclude : Nat) : List (Nat × Out) :=
  match st.connections with
  | none => []
  | some l => (l.filter (fun u => u != exclude)).map (fun u => (u, msg))

/-- `ConnectionManager._handle_edit`.  The guard `not all([user_id,
operation, char_data])` drops the message when a field is absent or falsy
(Python treats 0 and the empty string as falsy); afterwards
`char_data["value"]` / `char_data["position"]` raise `KeyError` when the key
is missing, before any state is touched. -/
def handle_edit (st : MgrDoc) (m : Message) (now : Int) :
    Except PyErr (MgrDoc × List (Nat × Out)) :=
  match m.user_id, m.operation, m.char with
  | some uid, some op, some cd =>
    if uid = 0 ∨ op = "" then Except.ok (st, [])
    else
      match cd.value, cd.position with
      | some v, some p =>
        let ch : Character := { value := v, position := p, deleted := cd.deleted.getD false }
        let st2 :=
          match st.doc_state with
          | some crdt => { st with doc_state := some (apply_remote_operation crdt ch) }
          | none => st
        Except.ok (st2, broadcast_to_document st2 (Out.edit uid op cd now) uid)
      | _, _ => Except.error PyErr.keyError
  | _, _, _ => Except.ok (st, [])

/-- `ConnectionManager._handle_cursor`: same drop guard over `user_id` and
`position`, then cursor-map update and broadcast. -/
def handle_cursor (st : MgrDoc) (m : Message) (now : Int) :
    Except PyErr (MgrDoc × List (Nat × Out)) :=
  match m.user_id, m.position with
  | some uid, some pos =>
    if uid = 0 ∨ pos = 0 then Except.ok (st, [])
    else
      let st2 :=
        match st.cursors with
        | some cm => { st with cursors := some (mset cm uid pos) }
        | none => st
      Except.ok (st2, broadcast_to_document st2 (Out.cursor uid pos now) uid)
  | _, _ => Except.ok (st, [])

/-- `ConnectionManager._handle_sync_request`: replies with the current
snapshot to the single requesting participant. -/
def handle_sync_request (st : MgrDoc) (m : Message) (now : Int) :
    Except PyErr (MgrDoc × List (Nat × Out)) :=
  match m.user_id with
  | some uid =>
    if uid = 0 then Except.ok (st, [])
    else
      match st.doc_state with
      | none => Except.ok (st, [])
      | some crdt =>
        match st.connections with
        | some l =>
          if uid ∈ l then
            Except.ok
              (st, [(uid, Out.syncResponse (to_dict crdt) (st.cursors.getD []) now)])
          else Except.ok (st, [])
        | none => Except.ok (st, [])
  | none => Except.ok (st, [])

/-- `ConnectionManager._handle_message`: dispatch on `message.get("type")`;
unknown types are ignored. -/
def handle_message (st : MgrDoc) (m : Message) (now : Int) :
    Except PyErr (MgrDoc × List (Nat × Out)) :=
  if m.mtype = some "edit" then handle_edit st m now
  else if m.mtype = some "cursor" then handle_cursor st m now
  else if m.mtype = some "sync_request" then handle_sync_request st m now
  else Except.ok (st, [])

/-- `ConnectionManager._process_messages`: the per-document loop takes one
queued message at a time; the `except Exception` around the body swallows a
raised error and the loop continues with the remaining messages. -/
def process_messages (st : MgrDoc) (msgs : List Message) (now : Int) :
    MgrDoc × List (Nat × Out) :=
  match msgs with
  | [] => (st, [])
  | m :: rest =>
    match handle_message st m now with
    | Except.ok (st2, outs) =>
      let r := process_messages st2 rest now
      (r.1, outs ++ r.2)
    | Except.error _ => process_messages st rest now

/-- A two-participant session over an empty document. -/
def stB : MgrDoc :=
  { connections := some [1, 2], doc_state := some (CRDT.init "srv"), cursors := some [] }

/-- Edit message with the required `user_id` field missing. -/
def mEditMissing : Message :=
  { mtype := some "edit", user_id := none, operation := some "insert",
    char := some { value := some "x", position := some { site_id := "s1", counter := 1, timestamp := 5 }, deleted := none },
    position := none }

/-- Edit message whose `char` payload lacks the `value` key, so building the
`Character` raises `KeyError`. -/
def mEditBadChar : Message :=
  { mtype := some "edit", user_id := some 1, operation := some "insert",
    char := some { value := none, position := some { site_id := "s1", counter := 1, timestamp := 5 }, deleted := none },
    position := none }

/-- Well-formed cursor message from the second participant. -/
def mCursorOk : Message :=
  { mtype := some "cursor", user_id := some 2, operation := none, char := none,
    position := some 7 }

end Broadcast

namespace Ws

/-- The fields of a `user_sessions[user_id]` entry of websocket.py that the
presence logic reads (`connection_id`, `joined_at` and `color` are write-only
metadata). -/
structure Session where
  document_id : Nat
  username : String
  last_activity : Int
deriving DecidableEq, Repr

/-- Mirror of the presence-tracking `ConnectionManager` of websocket.py.
Document contents are opaque blobs here; websocket handles are represented by
the connected user ids in dict order. -/
structure WSManager where
  active_connections : List (Nat × List Nat)
  user_cursors : List (Nat × List (Nat × Int))
  document_states : List (Nat × String)
  heartbeat_timestamps : List (Nat × List (Nat × Int))
  user_sessions : List (Nat × Session)
deriving DecidableEq, Repr

/-- `ConnectionManager.get_user_status`: no session means `offline`; a
session is `online` within 1 minute (60 s) of the last activity, `away`
within 5 minutes (300 s), and `offline` past that. -/
def get_user_status (m : WSManager) (uid : Nat) (now : Int) : String :=
  match mlookup m.user_sessions uid with
  | none => "offline"
  | some s =>
    if now - s.last_activity < 60 then "online"
    else if now - s.last_activity < 300 then "away"
    else "offline"

/-- `ConnectionManager.disconnect`: a no-op unless the document has an
active-connections entry; otherwise pops the user from the per-document maps,
deletes the user session, and drops the whole document entry when no
connection remains. -/
def disconnect (m : WSManager) (doc uid : Nat) : WSManager :=
  match mlookup m.active_connections doc with
  | none => m
  | some conns =>
    let conns2 := conns.filter (fun u => u != uid)
    let cursors2 :=
      match mlookup m.user_cursors doc with
      | none => m.user_cursors
      | some cm => mset m.user_cursors doc (merase cm uid)
    let hb2 :=
      match mlookup m.heartbeat_timestamps doc with
      | none => m.heartbeat_timestamps
      | some hm => mset m.heartbeat_timestamps doc (merase hm uid)
    if conns2.isEmpty then
      { active_connections := merase m.active_connections doc,
        user_cursors := merase cursors2 doc,
        document_states := merase m.document_states doc,
        heartbeat_timestamps := merase hb2 doc,
        user_sessions := merase m.user_sessions uid }
    else
      { active_connections := mset m.active_connections doc conns2,
        user_cursors := cursors2,
        document_states := m.document_states,
        heartbeat_timestamps := hb2,
        user_sessions := merase m.user_sessions uid }

/-- `ConnectionManager.cleanup_inactive_users` at clock `now`: collects the
sessions whose last activity lies strictly more than 5 minutes (300 s) in the
past and disconnects each of them. -/
def cleanup_inactive_users (m : WSManager) (now : Int) : WSManager :=
  ((m.user_sessions.filter (fun p => decide (300 < now - p.2.last_activity))).map
      (fun p => (p.2.document_id, p.1))).foldl
    (fun acc pr => disconnect acc pr.1 pr.2) m

/-- The consistency invariant `connect` establishes and `disconnect`
preserves: every tracked session belongs to a user that is among the active
connections of its document. -/
def SessionsConsistent (m : WSManager) : Prop :=
  ∀ uid s, mlookup m.user_sessions uid = some s →
    ∃ l, mlookup m.active_connections s.document_id = some l ∧ uid ∈ l

/-- One-user manager used to instantiate the presence theorem. -/
def mgrW : WSManager :=
  { active_connections := [(10, [1])],
    user_cursors := [(10, [(1, 3)])],
    document_states := [(10, "blob")],
    heartbeat_timestamps := [(10, [(1, 0)])],
    user_sessions := [(1, { document_id := 10, username := "alice", last_activity := 0 })] }

end Ws

end CollabWrite

namespace CollabWrite

open Crdt

/-- C1: the claim that replicas applying the same set of remote Characters in
any order converge fails on the code: two characters from different sites
with equal timestamps are ordered differently by the two application orders,
so the two replicas end with different text (`"yx"` versus `"xy"`). -/
theorem apply_remote_order_dependent :
    get_text (apply_remote_operation (apply_remote_operation (CRDT.init "A") chX) chY) = "yx"
  ∧ get_text (apply_remote_operation (apply_remote_operation (CRDT.init "B") chY) chX) = "xy"
  ∧ ("yx" : String) ≠ "xy" :=
  ⟨rfl, rfl, by decide⟩

/-- C2: the claim that `apply_remote_operation` is idempotent fails on the
code: there is no duplicate check, so applying the same character twice to an
empty replica stores it twice and doubles the text. -/
theorem apply_remote_not_idempotent :
    (apply_remote_operation (apply_remote_operation (CRDT.init "A") chX) chX).characters
      = [chX, chX]
  ∧ get_text (apply_remote_operation (apply_remote_operation (CRDT.init "A") chX) chX) = "xx"
  ∧ get_text (apply_remote_operation (CRDT.init "A") chX) = "x"
  ∧ ("xx" : String) ≠ "x" :=
  ⟨rfl, rfl, rfl, by decide⟩

/-- C3: the claim that `compare_positions` is a counter-first strict total
order fails on the code: for different sites it compares timestamps only, and
on an exact timestamp tie both directions return `1`, so for the distinct
positions `pP`, `pQ` (with `pP.counter < pQ.counter`) neither is consistently
ordered before the other and the counters are ignored. -/
theorem compare_positions_not_total_order :
    pP ≠ pQ ∧ pP.counter < pQ.counter
  ∧ compare_positions pP pQ = 1 ∧ compare_positions pQ pP = 1 := by
  decide

/-- C4: the no-collision claim fails on the code: with equal clock readings,
three consecutive `insert` calls at index 0 give the characters now at
indices 0 and 1 the identical Position (site `s`, counter 0), and the interior
midpoint allocation between neighbour counters 0 and 1 returns 0, which is not
strictly between them. -/
theorem insert_collides_at_same_index :
    (c3.characters.getD 0 dummyChar).position = (c3.characters.getD 1 dummyChar).position
  ∧ c3.characters.getD 0 dummyChar ≠ c3.characters.getD 1 dummyChar
  ∧ (insert c2 1 "d" 0).1.position.counter
      = (c2.characters.getD 0 dummyChar).position.counter
  ∧ (c2.characters.getD 0 dummyChar).position.counter = 0
  ∧ (c2.characters.getD 1 dummyChar).position.counter = 1 := by
  decide

/-- Decoding the encoding of a single character is the identity. -/
theorem decChar_encChar (ch : Character) : decChar (encChar ch) = ch := rfl

/-- Decoding the encoding of a character list is the identity. -/
theorem map_decChar_encChar (l : List Character) :
    (l.map encChar).map decChar = l := by
  induction l with
  | nil => rfl
  | cons x xs ih => simp [List.map_cons, decChar_encChar, ih]

/-- C5: snapshot round-trip: `from_dict (to_dict c) s` restores the exact
character list, hence the same text and the same tombstone set, preserving
every Position and deleted flag. -/
theorem from_dict_to_dict_roundtrip :
    ∀ (c : CRDT) (s : String),
      (from_dict (to_dict c) s).characters = c.characters
    ∧ get_text (from_dict (to_dict c) s) = get_text c
    ∧ (from_dict (to_dict c) s).characters.filter (fun ch => ch.deleted)
        = c.characters.filter (fun ch => ch.deleted) := by
  intro c s
  have h : (from_dict (to_dict c) s).characters = c.characters :=
    map_decChar_encChar c.characters
  exact ⟨h, by simp only [get_text, h], by rw [h]⟩

/-- C7: `delete` returns `none` exactly when the index is out of range (the
state is then unchanged); an in-range index (counted over all stored
characters, tombstones included) tombstones the character at that index and
returns it. -/
theorem delete_spec :
    ∀ (c : CRDT) (i : Int),
      ((delete c i).1 = none ↔ ¬(0 ≤ i ∧ i < (c.characters.length : Int)))
    ∧ (¬(0 ≤ i ∧ i < (c.characters.length : Int)) → (delete c i).2 = c)
    ∧ ((0 ≤ i ∧ i < (c.characters.length : Int)) →
        (delete c i).1 = some { c.characters.getD i.toNat dummyChar with deleted := true }
      ∧ (delete c i).2.characters
          = c.characters.set i.toNat { c.characters.getD i.toNat dummyChar with deleted := true }
      ∧ (delete c i).2.site_id = c.site_id
      ∧ (delete c i).2.counter = c.counter) := by
  intro c i
  by_cases h : 0 ≤ i ∧ i < (c.characters.length : Int)
  · simp [delete, h]
  · simp [delete, h]

/-- C7 witness: concrete out-of-range and in-range deletions on `cW`. -/
theorem delete_spec_witness :
    (delete cW 5).1 = none
  ∧ (delete cW 5).2 = cW
  ∧ (delete cW 0).1 = some { cW.characters.getD 0 dummyChar with deleted := true } :=
  ⟨(delete_spec cW 5).1.mpr (by decide),
   (delete_spec cW 5).2.1 (by decide),
   ((delete_spec cW 0).2.2 (by decide)).1⟩

/-- C9: `from_dict` always leaves the restored replica's local counter at 0,
whatever counters the snapshot stores; in particular the first position the
restored replica generates repeats the counter 1 already present in the
snapshot `d0`. -/
theorem from_dict_resets_counter :
    (∀ (d : DocDict) (s : String), (from_dict d s).counter = 0)
  ∧ (generate_position (from_dict d0 "B") 7).1.counter = 1
  ∧ (∃ ch ∈ (from_dict d0 "B").characters, ch.position.counter = 1) := by
  refine ⟨fun d s => rfl, rfl, ?_⟩
  decide

/-- C10: `compare_positions` never reports equality: every comparison returns
`-1` or `1`, and a position compared with itself returns `1`. -/
theorem compare_positions_never_zero :
    (∀ p q : Position, compare_positions p q = -1 ∨ compare_positions p q = 1)
  ∧ (∀ p : Position, compare_positions p p = 1) := by
  constructor
  · intro p q
    unfold compare_positions
    split
    · split
      · exact Or.inl rfl
      · exact Or.inr rfl
    · split
      · exact Or.inl rfl
      · exact Or.inr rfl
  · intro p
    simp [compare_positions]

/-- C6: an edit message missing `user_id`, `operation` or `char`, or a cursor
message missing `user_id` or `position`, is dropped by the handler with the
manager state unchanged and no broadcast; and when a handler raises, the
per-document processing loop swallows the exception and keeps processing the
remaining messages from the same state. -/
theorem malformed_message_dropped_and_loop_continues :
    ∀ (st : Broadcast.MgrDoc) (m : Broadcast.Message) (now : Int)
      (rest : List Broadcast.Message),
      (m.mtype = some "edit" →
        (m.user_id = none ∨ m.operation = none ∨ m.char = none) →
        Broadcast.handle_message st m now = Except.ok (st, []))
    ∧ (m.mtype = some "cursor" →
        (m.user_id = none ∨ m.position = none) →
        Broadcast.handle_message st m now = Except.ok (st, []))
    ∧ (∀ e, Broadcast.handle_message st m now = Except.error e →
        Broadcast.process_messages st (m :: rest) now
          = Broadcast.process_messages st rest now) := by
  intro st m now rest
  refine ⟨?_, ?_, ?_⟩
  · intro ht hmiss
    cases hu : m.user_id <;> cases ho : m.operation <;> cases hc : m.char <;>
      simp_all [Broadcast.handle_message, Broadcast.handle_edit]
  · intro ht hmiss
    cases hu : m.user_id <;> cases hp : m.position <;>
      simp_all [Broadcast.handle_message, Broadcast.handle_cursor]
  · intro e he
    simp [Broadcast.process_messages, he]

/-- C6 witness: the concrete edit message without `user_id` is dropped with
no state change and no broadcast, and a message whose `char` payload raises
`KeyError` does not stop the loop from processing the rest. -/
theorem malformed_message_dropped_witness :
    Broadcast.handle_message Broadcast.stB Broadcast.mEditMissing 0
      = Except.ok (Broadcast.stB, [])
  ∧ Broadcast.process_messages Broadcast.stB [Broadcast.mEditBadChar, Broadcast.mCursorOk] 0
      = Broadcast.process_messages Broadcast.stB [Broadcast.mCursorOk] 0 :=
  ⟨(malformed_message_dropped_and_loop_continues Broadcast.stB Broadcast.mEditMissing 0 []).1
      rfl (Or.inl rfl),
   (malformed_message_dropped_and_loop_continues Broadcast.stB Broadcast.mEditBadChar 0
      [Broadcast.mCursorOk]).2.2 Broadcast.PyErr.keyError rfl⟩

/-- Looking a key up after erasing one. -/
theorem mlookup_merase {α : Type} (l : List (Nat × α)) (k k2 : Nat) :
    mlookup (merase l k) k2 = if k2 = k then none else mlookup l k2 := by
  induction l with
  | nil => simp [merase, mlookup]
  | cons p t ih =>
    obtain ⟨k0, v0⟩ := p
    by_cases h0 : k0 = k
    · subst h0
      by_cases h2 : k2 = k0
      · subst h2
        simp [merase, mlookup, ih]
      · simp [merase, mlookup, h2, ih]
    · by_cases h2 : k2 = k0
      · subst h2
        simp [merase, mlookup, h0, ih]
      · simp [merase, mlookup, h0, h2, ih]

/-- Looking a key up after setting one. -/
theorem mlookup_mset {α : Type} (l : List (Nat × α)) (k k2 : Nat) (v : α) :
    mlookup (mset l k v) k2 = if k2 = k then some v else mlookup l k2 := by
  induction l with
  | nil =>
    by_cases h2 : k2 = k <;> simp [mset, mlookup, h2]
  | cons p t ih =>
    obtain ⟨k0, v0⟩ := p
    by_cases h0 : k = k0
    · subst h0
      by_cases h2 : k2 = k <;> simp [mset, mlookup, h2]
    · by_cases h2 : k2 = k0
      · subst h2
        have hk : ¬k2 = k := fun h => h0 h.symm
        simp [mset, mlookup, h0, hk]
      · simp [mset, mlookup, h0, h2, ih]

/-- A successful lookup names a pair of the list. -/
theorem mlookup_mem {α : Type} {l : List (Nat × α)} {k : Nat} {v : α}
    (h : mlookup l k = some v) : (k, v) ∈ l := by
  induction l with
  | nil => exact absurd h (by simp [mlookup])
  | cons p t ih =>
    obtain ⟨k0, v0⟩ := p
    by_cases h2 : k = k0
    · subst h2
      simp [mlookup] at h
      subst h
      exact List.mem_cons_self _ _
    · simp [mlookup, h2] at h
      exact List.mem_cons_of_mem _ (ih h)

/-- When the document has an active entry, `disconnect` erases exactly the
given user from the session registry. -/
theorem disconnect_sessions_of_active {m : Ws.WSManager} {d u : Nat} {l : List Nat}
    (hl : mlookup m.active_connections d = some l) :
    (Ws.disconnect m d u).user_sessions = merase m.user_sessions u := by
  unfold Ws.disconnect
  rw [hl]
  dsimp only
  split <;> rfl

/-- The session registry after a `disconnect` is the old one or the old one
with the disconnected user erased. -/
theorem disconnect_sessions_cases (m : Ws.WSManager) (d u : Nat) :
    (Ws.disconnect m d u).user_sessions = m.user_sessions
  ∨ (Ws.disconnect m d u).user_sessions = merase m.user_sessions u := by
  cases hl : mlookup m.active_connections d with
  | none =>
    left
    unfold Ws.disconnect
    rw [hl]
  | some l => exact Or.inr (disconnect_sessions_of_active hl)

/-- A session present after a `disconnect` was present before, unchanged. -/
theorem disconnect_sessions_lookup {m : Ws.WSManager} {d u v : Nat} {s2 : Ws.Session}
    (h : mlookup (Ws.disconnect m d u).user_sessions v = some s2) :
    mlookup m.user_sessions v = some s2 := by
  rcases disconnect_sessions_cases m d u with hc | hc <;> rw [hc] at h
  · exact h
  · rw [mlookup_merase] at h
    by_cases hv : v = u
    · rw [if_pos hv] at h
      exact absurd h (by simp)
    · rwa [if_neg hv] at h

/-- `disconnect` never creates sessions. -/
theorem disconnect_sessions_none {m : Ws.WSManager} {d u v : Nat}
    (h : mlookup m.user_sessions v = none) :
    mlookup (Ws.disconnect m d u).user_sessions v = none := by
  rcases disconnect_sessions_cases m d u with hc | hc <;> rw [hc]
  · exact h
  · rw [mlookup_merase]
    by_cases hv : v = u
    · rw [if_pos hv]
    · rwa [if_neg hv]

/-- Under the consistency invariant, disconnecting a tracked user from the
document of its session deletes the session. -/
theorem disconnect_evicts {m : Ws.WSManager} {uid : Nat} {s : Ws.Session}
    (hInv : Ws.SessionsConsistent m)
    (h : mlookup m.user_sessions uid = some s) :
    mlookup (Ws.disconnect m s.document_id uid).user_sessions uid = none := by
  obtain ⟨l, hl, _⟩ := hInv uid s h
  rw [disconnect_sessions_of_active hl, mlookup_merase, if_pos rfl]

/-- `disconnect` preserves the consistency invariant. -/
theorem disconnect_preserves (m : Ws.WSManager) (d u : Nat)
    (hInv : Ws.SessionsConsistent m) :
    Ws.SessionsConsistent (Ws.disconnect m d u) := by
  intro v s2 hv
  cases hact : mlookup m.active_connections d with
  | none =>
    have hid : Ws.disconnect m d u = m := by
      unfold Ws.disconnect
      rw [hact]
    rw [hid] at hv ⊢
    exact hInv v s2 hv
  | some conns =>
    rw [disconnect_sessions_of_active hact, mlookup_merase] at hv
    by_cases hvu : v = u
    · rw [if_pos hvu] at hv
      exact absurd hv (by simp)
    · rw [if_neg hvu] at hv
      obtain ⟨l, hl, hmem⟩ := hInv v s2 hv
      by_cases hdoc : s2.document_id = d
      · have hlc : l = conns := by
          rw [hdoc, hact] at hl
          exact (Option.some.injEq _ _).mp hl.symm
        subst hlc
        have hmem2 : v ∈ l.filter (fun x => x != u) :=
          List.mem_filter.mpr ⟨hmem, by simp [hvu]⟩
        have hne : ¬(l.filter (fun x => x != u)).isEmpty := by
          intro hemp
          rw [List.isEmpty_iff] at hemp
          rw [hemp] at hmem2
          exact absurd hmem2 (List.not_mem_nil v)
        have hres : (Ws.disconnect m d u).active_connections
            = mset m.active_connections d (l.filter (fun x => x != u)) := by
          unfold Ws.disconnect
          rw [hact]
          dsimp only
          rw [if_neg hne]
        refine ⟨l.filter (fun x => x != u), ?_, hmem2⟩
        rw [hres, hdoc, mlookup_mset, if_pos rfl]
      · refine ⟨l, ?_, hmem⟩
        unfold Ws.disconnect
        rw [hact]
        dsimp only
        split
        · rw [mlookup_merase, if_neg hdoc]
          exact hl
        · rw [mlookup_mset, if_neg hdoc]
          exact hl

/-- Once a session is gone it stays gone along a fold of disconnects. -/
theorem foldl_disconnect_none {L : List (Nat × Nat)} {m : Ws.WSManager} {uid : Nat}
    (h : mlookup m.user_sessions uid = none) :
    mlookup ((L.foldl (fun acc pr => Ws.disconnect acc pr.1 pr.2) m)).user_sessions uid
      = none := by
  induction L generalizing m with
  | nil => exact h
  | cons p t ih => exact ih (disconnect_sessions_none h)

/-- A fold of disconnects that contains the pair of a tracked session evicts
that session, given the consistency invariant. -/
theorem foldl_disconnect_evicts (L : List (Nat × Nat)) :
    ∀ (m : Ws.WSManager), Ws.SessionsConsistent m →
      ∀ (uid : Nat) (s : Ws.Session), (s.document_id, uid) ∈ L →
        mlookup m.user_sessions uid = some s →
        mlookup ((L.foldl (fun acc pr => Ws.disconnect acc pr.1 pr.2) m)).user_sessions uid
          = none := by
  induction L with
  | nil =>
    intro m _ uid s hmem
    exact absurd hmem (List.not_mem_nil _)
  | cons p t ih =>
    intro m hInv uid s hmem hlook
    obtain ⟨d1, u1⟩ := p
    rw [List.foldl_cons]
    rcases List.mem_cons.mp hmem with heq | hmem2
    · obtain ⟨hd1, hu1⟩ := Prod.mk.injEq .. ▸ heq
      subst hd1
      subst hu1
      exact foldl_disconnect_none (disconnect_evicts hInv hlook)
    · have hInv2 := disconnect_preserves m d1 u1 hInv
      cases h2 : mlookup (Ws.disconnect m d1 u1).user_sessions uid with
      | none => exact foldl_disconnect_none h2
      | some s2 =>
        have hs2 : mlookup m.user_sessions uid = some s2 :=
          disconnect_sessions_lookup h2
        rw [hlook] at hs2
        have hs : s2 = s := (Option.some.injEq _ _).mp hs2.symm
        subst hs
        exact ih (Ws.disconnect m d1 u1) hInv2 uid s2 hmem2 h2

/-- C8: presence derivation and eviction: a user with no session is
`offline`; a tracked user is `online` strictly within 60 seconds of the last
activity and `away` from 60 up to strictly below 300 seconds; and the
inactivity sweep deletes the session of every user inactive for more than
300 seconds (under the invariant that tracked sessions belong to actively
connected users). -/
theorem presence_status_and_eviction :
    ∀ (m : Ws.WSManager) (uid : Nat) (now : Int),
      (mlookup m.user_sessions uid = none → Ws.get_user_status m uid now = "offline")
    ∧ (∀ s, mlookup m.user_sessions uid = some s →
        now - s.last_activity < 60 → Ws.get_user_status m uid now = "online")
    ∧ (∀ s, mlookup m.user_sessions uid = some s →
        60 ≤ now - s.last_activity → now - s.last_activity < 300 →
        Ws.get_user_status m uid now = "away")
    ∧ (Ws.SessionsConsistent m →
        ∀ s, mlookup m.user_sessions uid = some s →
          300 < now - s.last_activity →
          mlookup (Ws.cleanup_inactive_users m now).user_sessions uid = none) := by
  intro m uid now
  refine ⟨?_, ?_, ?_, ?_⟩
  · intro h
    simp [Ws.get_user_status, h]
  · intro s h h60
    simp [Ws.get_user_status, h, h60]
  · intro s h h60 h300
    simp [Ws.get_user_status, h, not_lt.mpr h60, h300]
  · intro hInv s hlook hold
    have hpair : (uid, s) ∈ m.user_sessions := mlookup_mem hlook
    have hfil : (uid, s) ∈
        m.user_sessions.filter (fun p => decide (300 < now - p.2.last_activity)) :=
      List.mem_filter.mpr ⟨hpair, by simpa using hold⟩
    have hmap : (s.document_id, uid) ∈
        (m.user_sessions.filter (fun p => decide (300 < now - p.2.last_activity))).map
          (fun p => (p.2.document_id, p.1)) :=
      List.mem_map.mpr ⟨(uid, s), hfil, rfl⟩
    exact foldl_disconnect_evicts _ m hInv uid s hmap hlook

/-- C8 witness: on a one-user manager, an unknown user is `offline`, the
tracked user is `online` at 30 s and `away` at 100 s of inactivity, and a
sweep at 400 s deletes the session. -/
theorem presence_status_and_eviction_witness :
    Ws.get_user_status Ws.mgrW 2 400 = "offline"
  ∧ Ws.get_user_status Ws.mgrW 1 30 = "online"
  ∧ Ws.get_user_status Ws.mgrW 1 100 = "away"
  ∧ mlookup (Ws.cleanup_inactive_users Ws.mgrW 400).user_sessions 1 = none := by
  have hInv : Ws.SessionsConsistent Ws.mgrW := by
    intro uid s h
    by_cases hu : uid = 1
    · subst hu
      simp [Ws.mgrW, mlookup] at h
      refine ⟨[1], ?_, List.mem_singleton.mpr rfl⟩
      rw [← h]
      rfl
    · simp [Ws.mgrW, mlookup, hu] at h
  refine ⟨(presence_status_and_eviction Ws.mgrW 2 400).1 rfl,
    (presence_status_and_eviction Ws.mgrW 1 30).2.1 _ rfl (by decide),
    (presence_status_and_eviction Ws.mgrW 1 100).2.2.1 _ rfl (by decide) (by decide),
    (presence_status_and_eviction Ws.mgrW 1 400).2.2.2 hInv _ rfl (by decide)⟩

end CollabWrite
